import Mathlib

/-!
Verification of the OpenWebUI SSH Connection Manager
(`src/Open WebUI Tools/example_tool.py`) against its natural-language
specification.

The Python source is shallowly embedded: each operation of the `Tools`
class becomes a total Lean function parameterised by an *environment*
that fixes the outcome (normal return or raised exception) of every
external call the operation makes (paramiko key loading, `connect`,
`exec_command`, `socket.gethostbyname`, the public-IP HTTP request,
`os.getenv`).  A raised exception is an `Except.error` carrying the
exception's string rendering, exactly the value the source's
`except Exception as e: ... str(e)` branches observe.  Besides its
result dictionary each operation yields the list of external events it
performed, in order, and (for the SSH operations) whether the paramiko
client's transport is still open when the operation returns.
-/

namespace OpenWebUI

/-! ### Python string primitives

The source uses `str.lower`, `str.strip`, the `in` substring test and
`str.split`.  They are re-implemented here over `List Char` with
structural recursion so that every use kernel-evaluates on concrete
inputs. -/

/-- Whitespace as recognised by Python's `str.strip` (ASCII subset). -/
def pyIsSpace (c : Char) : Bool :=
  c == ' ' || c == '\t' || c == '\n' || c == '\r' || c == '\x0b' || c == '\x0c'

/-- Drop whitespace from both ends of a character list. -/
def stripChars (s : List Char) : List Char :=
  ((s.dropWhile pyIsSpace).reverse.dropWhile pyIsSpace).reverse

/-- Does the first list start with the second? -/
def startsWithList : List Char → List Char → Bool
  | _, [] => true
  | [], _ :: _ => false
  | a :: as, b :: bs => a == b && startsWithList as bs

/-- Substring containment, Python's `needle in hay`. -/
def containsSub : List Char → List Char → Bool
  | [], needle => needle.isEmpty
  | h :: t, needle => startsWithList (h :: t) needle || containsSub t needle

/-- Fuel-driven worker for `splitOnList`; the fuel is an upper bound on
the number of characters still to scan, so the zero-fuel case is
unreachable when called with `hay.length`. -/
def splitGo (n : Char) (ns : List Char) : Nat → List Char → List Char → List (List Char)
  | _, [], acc => [acc.reverse]
  | 0, h :: t, acc => [acc.reverse ++ (h :: t)]
  | fuel + 1, h :: t, acc =>
    if startsWithList (h :: t) (n :: ns) then
      acc.reverse :: splitGo n ns fuel (t.drop ns.length) []
    else
      splitGo n ns fuel t (h :: acc)

/-- Python's `hay.split(needle)` for a non-empty separator. -/
def splitOnList (hay needle : List Char) : List (List Char) :=
  match needle with
  | [] => [hay]
  | n :: ns => splitGo n ns hay.length hay []

/-- Python's `s.lower()`. -/
def pyLower (s : String) : String := ⟨s.data.map Char.toLower⟩

/-- Python's `s.strip()`: removes leading *and* trailing whitespace. -/
def pyStrip (s : String) : String := ⟨stripChars s.data⟩

/-- Python's `needle in hay` on strings. -/
def pyContains (hay needle : String) : Bool := containsSub hay.data needle.data

/-- Python's `s.split(sep)` on strings. -/
def pySplit (s sep : String) : List String := (splitOnList s.data sep.data).map String.mk

/-- Follows the spec's words, for comparison with the source's
`pyStrip`: trim *trailing* whitespace only. -/
def trimTrailingOnly (s : String) : String := ⟨(s.data.reverse.dropWhile pyIsSpace).reverse⟩

/-- Truthiness of a Python `Optional[str]`: `None` and `""` are falsy.
This is the test `if connection.private_key:` performs. -/
def pyTruthy : Option String → Bool
  | none => false
  | some s => s ≠ ""

/-! ### Data model -/

/-- Embedding of the pydantic model `SSHConnection`
(`example_tool.py`, lines 39–45). -/
structure SSHConnection where
  host : String
  port : Int := 22
  username : String
  password : Option String := none
  private_key : Option String := none
  timeout : Int := 10
deriving Repr, DecidableEq

/-- Result dictionaries of the operations: Python dicts whose values are
strings, as ordered association lists of key/value pairs. -/
abbrev Dict := List (String × String)

/-- Python's `d.get(k)` on a `Dict`. -/
def Dict.lookup (d : Dict) (k : String) : Option String :=
  (d.find? (fun p => p.1 == k)).map (fun p => p.2)

/-- The dictionary built by every `except` branch:
`{"status": "error", "message": str(e)}`. -/
def errDict (msg : String) : Dict := [("status", "error"), ("message", msg)]

/-- External events an operation performs, in program order. -/
inductive Event where
  | clientCreated
  | keyLoad (path : String)
  | dialKey (host : String) (port : Int) (user : String) (timeout : Int)
  | dialPassword (host : String) (port : Int) (user : String)
      (password : Option String) (timeout : Int)
  | execCmd (cmd : String)
  | closeClient
  | privateIpLookup
  | publicIpLookup
deriving Repr, DecidableEq

/-- Events belonging to the SSH machinery (as opposed to the IP probe). -/
def Event.isSSH : Event → Bool
  | .privateIpLookup => false
  | .publicIpLookup => false
  | _ => true

/-- Is this event a network dial (a `client.connect` call)? -/
def Event.isDial : Event → Bool
  | .dialKey _ _ _ _ => true
  | .dialPassword _ _ _ _ _ => true
  | _ => false

/-- Outcomes of the external calls the SSH operations make.  Each field
returns either a normal result or, as `Except.error`, the string
rendering of a raised exception. -/
structure SSHEnv where
  keyLoad : String → Except String String
  connectKey : String → Int → String → String → Int → Except String Unit
  connectPw : String → Int → String → Option String → Int → Except String Unit
  execCommand : String → Except String (String × String)

/-- Outcomes of the two lookups `get_ip_info` makes:
`socket.gethostbyname(socket.gethostname())` and the
`requests.get("https://api.ipify.org...").json().get("ip", "Unknown")`
chain (the `"Unknown"` default is part of a successful outcome). -/
structure IpEnv where
  gethostbyname : Except String String
  publicIp : Except String String

/-! ### The operations

`RunState` packages what an SSH operation's run yields: the returned
dictionary, whether the paramiko client's transport is still open at
return, and the ordered event list.  A `client.connect` call that
raises is modelled as leaving no open transport (the source gives no
finer information); `exec_command` raising after a successful connect
leaves the transport open, since only `client.close()` closes it. -/

structure RunState where
  result : Dict
  transportOpen : Bool
  events : List Event
deriving Repr, DecidableEq

/-- The shared connect block of `test_ssh_connection` and
`execute_ssh_command` (`example_tool.py`, lines 80–96 and 109–125; the
source duplicates it verbatim in both methods):
`client = paramiko.SSHClient()`, `set_missing_host_key_policy`, then
key-file authentication when `connection.private_key` is truthy, else
password authentication.  Returns the exception (if any) and the events
so far. -/
def connectClient (env : SSHEnv) (c : SSHConnection) : Except String Unit × List Event :=
  if pyTruthy c.private_key then
    let path := c.private_key.getD ""
    match env.keyLoad path with
    | .error e => (.error e, [.clientCreated, .keyLoad path])
    | .ok key =>
      match env.connectKey c.host c.port c.username key c.timeout with
      | .error e =>
          (.error e,
           [.clientCreated, .keyLoad path, .dialKey c.host c.port c.username c.timeout])
      | .ok _ =>
          (.ok (),
           [.clientCreated, .keyLoad path, .dialKey c.host c.port c.username c.timeout])
  else
    match env.connectPw c.host c.port c.username c.password c.timeout with
    | .error e =>
        (.error e,
         [.clientCreated, .dialPassword c.host c.port c.username c.password c.timeout])
    | .ok _ =>
        (.ok (),
         [.clientCreated, .dialPassword c.host c.port c.username c.password c.timeout])

/-- Embedding of `Tools.test_ssh_connection` (`example_tool.py`,
lines 75–100): connect, close, report success; any exception is caught
and rendered as `{"status": "error", "message": str(e)}`. -/
def test_ssh_connection (env : SSHEnv) (c : SSHConnection) : RunState :=
  match connectClient env c with
  | (.error e, evs) => ⟨errDict e, false, evs⟩
  | (.ok _, evs) =>
      ⟨[("status", "success"), ("message", "SSH connection successful")],
       false, evs ++ [.closeClient]⟩

/-- Embedding of `Tools.execute_ssh_command` (`example_tool.py`,
lines 102–132): connect, `exec_command`, read and decode both streams,
`str.strip` them, close, report; any exception is caught.  The source
has no `finally`: when `exec_command` raises after a successful
connect, `client.close()` is never reached and the transport stays
open. -/
def execute_ssh_command (env : SSHEnv) (c : SSHConnection) (command : String) : RunState :=
  match connectClient env c with
  | (.error e, evs) => ⟨errDict e, false, evs⟩
  | (.ok _, evs) =>
      match env.execCommand command with
      | .error e => ⟨errDict e, true, evs ++ [.execCmd command]⟩
      | .ok (out, err) =>
          ⟨[("status", "success"), ("output", pyStrip out), ("error", pyStrip err)],
           false, evs ++ [.execCmd command, .closeClient]⟩

/-- Embedding of `Tools.get_ip_info` (`example_tool.py`, lines 57–73):
one `try` block resolves the private address, then the public address,
and returns both; the first exception aborts the whole block and the
`except` branch returns `{"status": "error", "message": str(e)}`
only. -/
def get_ip_info (env : IpEnv) : Dict × List Event :=
  match env.gethostbyname with
  | .error e => (errDict e, [.privateIpLookup])
  | .ok priv =>
      match env.publicIp with
      | .error e => (errDict e, [.privateIpLookup, .publicIpLookup])
      | .ok pub =>
          ([("status", "success"), ("private_ip", priv), ("public_ip", pub)],
           [.privateIpLookup, .publicIpLookup])

/-! ### The `pipe` entry point -/

/-- One chat message, the dictionaries in `body["messages"]`.  The
source reads `last_message.get("content", "")`; the model keeps the
`content` key always present, with `""` standing for an absent one. -/
structure Message where
  role : String
  content : String
deriving Repr, DecidableEq

/-- The request body handed to `pipe`: `body.get("messages", [])`
distinguishes an absent key (`none`) from a present list. -/
structure Body where
  messages : Option (List Message)
deriving Repr, DecidableEq

/-- A `pipe` return value: either the (possibly extended) body, or one
of the bare `{"error": ...}` dictionaries. -/
inductive PipeResult where
  | body (b : Body)
  | errorOnly (d : Dict)
deriving Repr, DecidableEq

/-- Rendering of `json.dumps({key: dict})` for the flat string
dictionaries the operations return, used for the appended assistant
message's content.  Its exact text is irrelevant to every claim; only
that the reply embeds the sub-result. -/
def dumpsWrap (key : String) (d : Dict) : String :=
  "\x7b\"" ++ key ++ "\": \x7b"
    ++ String.intercalate ", " (d.map (fun p => "\"" ++ p.1 ++ "\": \"" ++ p.2 ++ "\""))
    ++ "\x7d\x7d"

/-- Environment for `pipe`: the sub-operation environments plus the
`os.getenv` values for `SSH_HOST`, `SSH_USER`, `SSH_PASS`. -/
structure PipeEnv where
  ip : IpEnv
  ssh : SSHEnv
  ssh_host : Option String
  ssh_user : Option String
  ssh_pass : Option String

/-- Embedding of `Tools.pipe` (`example_tool.py`, lines 134–168):
return `{"error": "No messages provided"}` on a missing or empty
message list; otherwise dispatch on the last message's content —
`"ip"` substring (case-insensitive) first, `elif` `"ssh"`, else return
the body unchanged.  The dispatched branch appends an assistant message
to `body["messages"]` and returns the body.  The event list records the
external calls made. -/
def pipe (env : PipeEnv) (body : Body) : PipeResult × List Event :=
  let messages := body.messages.getD []
  if messages.isEmpty then
    (.errorOnly [("error", "No messages provided")], [])
  else
    let last_message := messages.getLast?.getD ⟨"", ""⟩
    let content := last_message.content
    if pyContains (pyLower content) "ip" then
      let (ip_info, evs) := get_ip_info env.ip
      (.body ⟨some (messages ++ [⟨"assistant", dumpsWrap "ip_info" ip_info⟩])⟩, evs)
    else if pyContains (pyLower content) "ssh" then
      let connection : SSHConnection :=
        { host := env.ssh_host.getD "localhost"
          username := env.ssh_user.getD "user"
          password := env.ssh_pass }
      if pyContains (pyLower content) "test" then
        let r := test_ssh_connection env.ssh connection
        (.body ⟨some (messages ++ [⟨"assistant", dumpsWrap "ssh_result" r.result⟩])⟩,
         r.events)
      else
        let command := pyStrip ((pySplit content "ssh").getD 1 "")
        let r := execute_ssh_command env.ssh connection command
        (.body ⟨some (messages ++ [⟨"assistant", dumpsWrap "ssh_result" r.result⟩])⟩,
         r.events)
    else
      (.body body, [])

/-! ### The `Tools` object and its registry -/

/-- The mutable state of a `Tools` instance: `self.active_connections`,
the `Dict[str, paramiko.SSHClient]` created in `Tools.__init__`
(`example_tool.py`, lines 54–55).  Clients are identified by number. -/
structure Tools where
  active_connections : List (String × Nat)
deriving Repr, DecidableEq

/-- `Tools.__init__`: the registry starts empty. -/
def Tools.init : Tools := ⟨[]⟩

/-- One top-level call on a `Tools` instance, with its environment and
arguments. -/
inductive Call where
  | testCall (env : SSHEnv) (c : SSHConnection)
  | execCall (env : SSHEnv) (c : SSHConnection) (cmd : String)
  | ipCall (env : IpEnv)
  | pipeCall (env : PipeEnv) (b : Body)

/-- Method dispatch on a `Tools` instance.  Each method body reads and
writes no attribute of `self` (every occurrence of
`active_connections` in the source is the one in `__init__`), so the
outgoing state is the incoming one and the work is delegated to the
per-operation functions. -/
def Tools.step (t : Tools) : Call → Tools × List Event
  | .testCall env c => (t, (test_ssh_connection env c).events)
  | .execCall env c cmd => (t, (execute_ssh_command env c cmd).events)
  | .ipCall env => (t, (get_ip_info env).2)
  | .pipeCall env b => (t, (pipe env b).2)

/-- Run a finite sequence of calls from a given state. -/
def Tools.run (t : Tools) : List Call → Tools
  | [] => t
  | call :: rest => Tools.run (t.step call).1 rest

/-! ### The manager's `close`, modelled from the spec -/

/-- Modelled from the spec: a `Session`, "an open authenticated
transport bound to one ConnectionSpec".  The source holds sessions only
inside `paramiko.SSHClient` objects, whose implementation is not part
of this repository, so the session state is taken from the spec: a
transport that is either still held (open) or already released. -/
structure Session where
  transportOpen : Bool
deriving Repr, DecidableEq

/-- Modelled from the spec: the manager operation `close(session)`.
The source delegates it to `paramiko.SSHClient.close`, which is not in
this repository; per the spec's words it releases the transport when
one is held and is "a no-op, never an error" otherwise.  The returned
flag records whether a release of the underlying resource happened in
this call, so a double-free would show as `true` on a second close. -/
def Session.close (s : Session) : Session × Bool :=
  if s.transportOpen then (⟨false⟩, true) else (s, false)

/-! ### Concrete inputs for witnesses and counterexamples -/

/-- The connection of the source's own example usage block:
password-only authentication. -/
def cPw : SSHConnection :=
  { host := "localhost", username := "testuser", password := some "testpass" }

/-- Both authentication fields are set, but the private key is the
empty string — a set yet falsy value. -/
def cEmptyKey : SSHConnection :=
  { host := "localhost", username := "testuser"
    password := some "pw", private_key := some "" }

/-- A spec the spec's validation rules would reject on all three
counts: empty host, out-of-range port, no credentials at all. -/
def cBad : SSHConnection := { host := "", port := 0, username := "u" }

/-- Environment in which every external SSH call succeeds. -/
def envAllOk : SSHEnv :=
  { keyLoad := fun _ => .ok "KEYDATA"
    connectKey := fun _ _ _ _ _ => .ok ()
    connectPw := fun _ _ _ _ _ => .ok ()
    execCommand := fun _ => .ok ("", "") }

/-- Environment in which connecting succeeds but `exec_command`
raises. -/
def envExecRaises : SSHEnv :=
  { keyLoad := fun _ => .ok "KEYDATA"
    connectKey := fun _ _ _ _ _ => .ok ()
    connectPw := fun _ _ _ _ _ => .ok ()
    execCommand := fun _ => .error "exec channel failure" }

/-- Environment whose remote command emits output with leading and
trailing whitespace. -/
def envLeadingWs : SSHEnv :=
  { keyLoad := fun _ => .ok "KEYDATA"
    connectKey := fun _ _ _ _ _ => .ok ()
    connectPw := fun _ _ _ _ _ => .ok ()
    execCommand := fun _ => .ok (" hello\n", "") }

/-- Environment realising the spec's `echo hello` scenario: the remote
command `echo hello` produces `"hello\n"` on standard output and
nothing on standard error. -/
def envEcho : SSHEnv :=
  { keyLoad := fun _ => .ok "KEYDATA"
    connectKey := fun _ _ _ _ _ => .ok ()
    connectPw := fun _ _ _ _ _ => .ok ()
    execCommand := fun cmd =>
      if cmd == "echo hello" then .ok ("hello\n", "") else .error "command failed" }

/-- IP environment: private resolution succeeds, public lookup
raises. -/
def ipEnvPubFail : IpEnv :=
  { gethostbyname := .ok "10.0.0.7", publicIp := .error "public lookup failed" }

/-- IP environment in which both lookups succeed. -/
def ipEnvOk : IpEnv :=
  { gethostbyname := .ok "10.0.0.7", publicIp := .ok "203.0.113.9" }

/-- Pipe environment with no `SSH_*` environment variables set and
all-success sub-environments. -/
def envPipeOk : PipeEnv :=
  { ip := ipEnvOk, ssh := envAllOk, ssh_host := none, ssh_user := none, ssh_pass := none }

/-- A body whose last (only) message asks about both ssh and IP. -/
def bodyIpSsh : Body := ⟨some [⟨"user", "use ssh to get my IP"⟩]⟩

/-! ### Trace predicates -/

/-- Was key-file authentication attempted (a key load occurred)? -/
def keyPathTaken (evs : List Event) : Bool :=
  evs.any (fun e => match e with | .keyLoad _ => true | _ => false)

/-- Was password authentication attempted (a password dial occurred)? -/
def pwPathTaken (evs : List Event) : Bool :=
  evs.any (fun e => match e with | .dialPassword _ _ _ _ _ => true | _ => false)

/-- Does the result dictionary carry a machine-readable status together
with a human-readable message whenever that status is `"error"`? -/
def structuredResult (d : Dict) : Bool :=
  (Dict.lookup d "status" == some "success") ||
    ((Dict.lookup d "status" == some "error") && (Dict.lookup d "message").isSome)

/-! ### Claims -/

/-- C1 fails as stated: in this run both authentication fields are set
(`private_key = some ""`, `password = some "pw"`), yet both operations
take the password path — `if connection.private_key:` tests Python
truthiness, and the empty string is falsy — so no key material is ever
loaded and the connect call carries the password. -/
theorem empty_key_string_takes_password_path :
    cEmptyKey.private_key = some "" ∧ cEmptyKey.password = some "pw" ∧
    keyPathTaken (test_ssh_connection envAllOk cEmptyKey).events = false ∧
    pwPathTaken (test_ssh_connection envAllOk cEmptyKey).events = true ∧
    keyPathTaken (execute_ssh_command envAllOk cEmptyKey "ls").events = false ∧
    pwPathTaken (execute_ssh_command envAllOk cEmptyKey "ls").events = true := by
  decide

/-- C1 as amended: in every environment, `test_ssh_connection` and
`execute_ssh_command` attempt key-file authentication exactly when
`private_key` is truthy (set and non-empty), and password
authentication exactly otherwise; with a non-empty key a set password
is ignored. -/
theorem auth_path_follows_private_key_truthiness
    (env : SSHEnv) (c : SSHConnection) (cmd : String) :
    keyPathTaken (test_ssh_connection env c).events = pyTruthy c.private_key ∧
    pwPathTaken (test_ssh_connection env c).events = !pyTruthy c.private_key ∧
    keyPathTaken (execute_ssh_command env c cmd).events = pyTruthy c.private_key ∧
    pwPathTaken (execute_ssh_command env c cmd).events = !pyTruthy c.private_key := by
  cases hp : pyTruthy c.private_key
  · cases hc : env.connectPw c.host c.port c.username c.password c.timeout with
    | error e =>
        simp [test_ssh_connection, execute_ssh_command, connectClient, hp, hc,
          keyPathTaken, pwPathTaken]
    | ok u =>
        cases hx : env.execCommand cmd <;>
          simp [test_ssh_connection, execute_ssh_command, connectClient, hp, hc, hx,
            keyPathTaken, pwPathTaken]
  · cases hk : env.keyLoad (c.private_key.getD "") with
    | error e =>
        simp [test_ssh_connection, execute_ssh_command, connectClient, hp, hk,
          keyPathTaken, pwPathTaken]
    | ok key =>
        cases hck : env.connectKey c.host c.port c.username key c.timeout with
        | error e =>
            simp [test_ssh_connection, execute_ssh_command, connectClient, hp, hk, hck,
              keyPathTaken, pwPathTaken]
        | ok u =>
            cases hx : env.execCommand cmd <;>
              simp [test_ssh_connection, execute_ssh_command, connectClient, hp, hk, hck,
                hx, keyPathTaken, pwPathTaken]

/-- C2 fails on the code: in a run where the connect succeeds and
`exec_command` raises, `execute_ssh_command` returns the error
dictionary while the client's transport is still open and no
`client.close()` was ever issued — the source has no `finally`, so the
exception path skips the close. -/
theorem exec_failure_leaves_transport_open :
    (execute_ssh_command envExecRaises cPw "ls").result =
      [("status", "error"), ("message", "exec channel failure")] ∧
    (execute_ssh_command envExecRaises cPw "ls").transportOpen = true ∧
    (execute_ssh_command envExecRaises cPw "ls").events.contains .closeClient = false := by
  decide

/-- C3 fails as stated: with the private lookup resolving to
`"10.0.0.7"` and the public lookup raising, `get_ip_info` returns only
`{"status": "error", "message": ...}` — the already-resolved private
address is absent from the result, because the single `try` block
aborts on the first exception. -/
theorem public_failure_drops_private_ip :
    ipEnvPubFail.gethostbyname = .ok "10.0.0.7" ∧
    (get_ip_info ipEnvPubFail).1 =
      [("status", "error"), ("message", "public lookup failed")] ∧
    Dict.lookup (get_ip_info ipEnvPubFail).1 "private_ip" = none :=
  ⟨rfl, by decide, by decide⟩

/-- C3 as amended: when the private lookup succeeds and the public
lookup fails, `get_ip_info` returns status `error` with the public
failure's message and *no* `private_ip` field — the whole call aborts
rather than degrading to partial success. -/
theorem get_ip_info_aborts_on_public_failure
    (env : IpEnv) (priv e : String)
    (h1 : env.gethostbyname = .ok priv) (h2 : env.publicIp = .error e) :
    (get_ip_info env).1 = errDict e ∧
    Dict.lookup (get_ip_info env).1 "status" = some "error" ∧
    Dict.lookup (get_ip_info env).1 "message" = some e ∧
    Dict.lookup (get_ip_info env).1 "private_ip" = none := by
  simp [get_ip_info, h1, h2, errDict, Dict.lookup]

/-- Witness for the amended C3, at the concrete environment
`ipEnvPubFail`. -/
theorem get_ip_info_aborts_on_public_failure_witness :
    (get_ip_info ipEnvPubFail).1 = errDict "public lookup failed" ∧
    Dict.lookup (get_ip_info ipEnvPubFail).1 "status" = some "error" ∧
    Dict.lookup (get_ip_info ipEnvPubFail).1 "message" = some "public lookup failed" ∧
    Dict.lookup (get_ip_info ipEnvPubFail).1 "private_ip" = none :=
  get_ip_info_aborts_on_public_failure ipEnvPubFail "10.0.0.7" "public lookup failed" rfl rfl

/-- C4 fails on the code: for the spec with empty host, port `0` and no
credentials at all — which the claim says must be rejected by
validation before any network activity — `test_ssh_connection` in an
all-success environment performs a network dial and returns
`{"status": "success", ...}`.  No validation of any kind exists in the
source. -/
theorem invalid_spec_connects_successfully :
    cBad.host = "" ∧ cBad.port = 0 ∧ cBad.password = none ∧ cBad.private_key = none ∧
    (test_ssh_connection envAllOk cBad).result =
      [("status", "success"), ("message", "SSH connection successful")] ∧
    (test_ssh_connection envAllOk cBad).events.any Event.isDial = true := by
  decide

/-- C4 as amended: the operations perform no validation of the spec —
for *every* `SSHConnection`, valid or not, the run starts by
constructing a client and proceeds directly to a key load (truthy
`private_key`) or a password connect attempt (otherwise); failures
surface only as the caught exception of those external calls. -/
theorem no_spec_validation_before_dial
    (env : SSHEnv) (c : SSHConnection) (cmd : String) :
    ((test_ssh_connection env c).events.head? = some .clientCreated) ∧
    (pyTruthy c.private_key = false →
      Event.dialPassword c.host c.port c.username c.password c.timeout ∈
          (test_ssh_connection env c).events ∧
        Event.dialPassword c.host c.port c.username c.password c.timeout ∈
          (execute_ssh_command env c cmd).events) ∧
    (pyTruthy c.private_key = true →
      Event.keyLoad (c.private_key.getD "") ∈ (test_ssh_connection env c).events ∧
        Event.keyLoad (c.private_key.getD "") ∈ (execute_ssh_command env c cmd).events) := by
  cases hp : pyTruthy c.private_key
  · cases hc : env.connectPw c.host c.port c.username c.password c.timeout with
    | error e =>
        simp [test_ssh_connection, execute_ssh_command, connectClient, hp, hc]
    | ok u =>
        cases hx : env.execCommand cmd <;>
          simp [test_ssh_connection, execute_ssh_command, connectClient, hp, hc, hx]
  · cases hk : env.keyLoad (c.private_key.getD "") with
    | error e =>
        simp [test_ssh_connection, execute_ssh_command, connectClient, hp, hk]
    | ok key =>
        cases hck : env.connectKey c.host c.port c.username key c.timeout with
        | error e =>
            simp [test_ssh_connection, execute_ssh_command, connectClient, hp, hk, hck]
        | ok u =>
            cases hx : env.execCommand cmd <;>
              simp [test_ssh_connection, execute_ssh_command, connectClient, hp, hk, hck, hx]

/-- Witness for the amended C4: the invalid spec `cBad` (empty host,
port 0, no credentials) still reaches a password dial. -/
theorem no_spec_validation_before_dial_witness :
    Event.dialPassword "" 0 "u" none 10 ∈ (test_ssh_connection envAllOk cBad).events ∧
      Event.dialPassword "" 0 "u" none 10 ∈ (execute_ssh_command envAllOk cBad "ls").events :=
  (no_spec_validation_before_dial envAllOk cBad "ls").2.1 rfl

/-- C5: in every environment — that is, whatever combination of the
external calls raises — each of the three operations returns a
dictionary whose `status` is `"success"` or `"error"`, with a `message`
entry present in the error case.  The operations are total functions
into result dictionaries, so no exception crosses the operation
boundary: the source's `except Exception` branch is the only exit for
a raised exception. -/
theorem operations_return_structured_results
    (env : SSHEnv) (ienv : IpEnv) (c : SSHConnection) (cmd : String) :
    structuredResult (test_ssh_connection env c).result = true ∧
    structuredResult (execute_ssh_command env c cmd).result = true ∧
    structuredResult (get_ip_info ienv).1 = true := by
  refine ⟨?_, ?_, ?_⟩
  · cases hp : pyTruthy c.private_key
    · cases hc : env.connectPw c.host c.port c.username c.password c.timeout <;>
        simp [test_ssh_connection, connectClient, hp, hc, structuredResult,
          Dict.lookup, errDict]
    · cases hk : env.keyLoad (c.private_key.getD "") with
      | error e => simp [test_ssh_connection, connectClient, hp, hk, structuredResult,
          Dict.lookup, errDict]
      | ok key =>
          cases hck : env.connectKey c.host c.port c.username key c.timeout <;>
            simp [test_ssh_connection, connectClient, hp, hk, hck, structuredResult,
              Dict.lookup, errDict]
  · cases hp : pyTruthy c.private_key
    · cases hc : env.connectPw c.host c.port c.username c.password c.timeout with
      | error e => simp [execute_ssh_command, connectClient, hp, hc, structuredResult,
          Dict.lookup, errDict]
      | ok u =>
          cases hx : env.execCommand cmd <;>
            simp [execute_ssh_command, connectClient, hp, hc, hx, structuredResult,
              Dict.lookup, errDict]
    · cases hk : env.keyLoad (c.private_key.getD "") with
      | error e => simp [execute_ssh_command, connectClient, hp, hk, structuredResult,
          Dict.lookup, errDict]
      | ok key =>
          cases hck : env.connectKey c.host c.port c.username key c.timeout with
          | error e => simp [execute_ssh_command, connectClient, hp, hk, hck,
              structuredResult, Dict.lookup, errDict]
          | ok u =>
              cases hx : env.execCommand cmd <;>
                simp [execute_ssh_command, connectClient, hp, hk, hck, hx,
                  structuredResult, Dict.lookup, errDict]
  · cases hg : ienv.gethostbyname with
    | error e => simp [get_ip_info, hg, structuredResult, Dict.lookup, errDict]
    | ok priv =>
        cases hpub : ienv.publicIp <;>
          simp [get_ip_info, hg, hpub, structuredResult, Dict.lookup, errDict]

/-- C6 fails as stated: the source applies Python's `str.strip`, which
removes *leading* whitespace as well.  For a remote stream reading
`" hello\n"`, the operation reports output `"hello"`, whereas trimming
only trailing whitespace — the spec's wording — would give
`" hello"`. -/
theorem leading_whitespace_also_stripped :
    Dict.lookup (execute_ssh_command envLeadingWs cPw "cat notes").result "output" =
      some "hello" ∧
    trimTrailingOnly " hello\n" = " hello" ∧
    pyStrip " hello\n" ≠ trimTrailingOnly " hello\n" := by
  decide

/-- C6 as amended: when the connect and the command succeed, `execute`
reads both streams to end-of-stream, decodes them, and strips leading
*and* trailing whitespace from each (Python `str.strip`), returning
status success with the stripped streams and a closed transport. -/
theorem execute_strips_both_ends
    (env : SSHEnv) (c : SSHConnection) (cmd out err : String)
    (hk : pyTruthy c.private_key = false)
    (hc : env.connectPw c.host c.port c.username c.password c.timeout = .ok ())
    (he : env.execCommand cmd = .ok (out, err)) :
    (execute_ssh_command env c cmd).result =
      [("status", "success"), ("output", pyStrip out), ("error", pyStrip err)] ∧
    (execute_ssh_command env c cmd).transportOpen = false := by
  simp [execute_ssh_command, connectClient, hk, hc, he]

/-- Witness for the amended C6, realising the spec's scenario: command
`echo hello` on a working session yields status success, output
`"hello"`, error `""`. -/
theorem execute_strips_both_ends_witness :
    (execute_ssh_command envEcho cPw "echo hello").result =
      [("status", "success"), ("output", "hello"), ("error", "")] ∧
    (execute_ssh_command envEcho cPw "echo hello").transportOpen = false := by
  have h := execute_strips_both_ends envEcho cPw "echo hello" "hello\n" ""
    rfl rfl rfl
  rwa [show pyStrip "hello\n" = "hello" from by decide,
    show pyStrip "" = "" from by decide] at h

/-- C7: the manager's `close` is idempotent — a second close of an
already-closed session returns the session unchanged and releases no
resource, so it is a no-op with no double-free. -/
theorem close_idempotent (s : Session) :
    ((s.close.1).close).1 = s.close.1 ∧ ((s.close.1).close).2 = false := by
  cases s with
  | mk b => cases b <;> simp [Session.close]

/-- Every method dispatch leaves the `Tools` state unchanged, so any run
does. -/
theorem tools_run_id (t : Tools) : ∀ calls : List Call, Tools.run t calls = t
  | [] => rfl
  | call :: rest => by
      cases call <;> exact tools_run_id t rest

/-- Every run of `test_ssh_connection` or `execute_ssh_command` begins
by constructing a fresh paramiko client. -/
theorem ssh_ops_create_fresh_client (env : SSHEnv) (c : SSHConnection) (cmd : String) :
    (test_ssh_connection env c).events.head? = some .clientCreated ∧
    (execute_ssh_command env c cmd).events.head? = some .clientCreated := by
  cases hp : pyTruthy c.private_key
  · cases hc : env.connectPw c.host c.port c.username c.password c.timeout with
    | error e =>
        simp [test_ssh_connection, execute_ssh_command, connectClient, hp, hc]
    | ok u =>
        cases hx : env.execCommand cmd <;>
          simp [test_ssh_connection, execute_ssh_command, connectClient, hp, hc, hx]
  · cases hk : env.keyLoad (c.private_key.getD "") with
    | error e =>
        simp [test_ssh_connection, execute_ssh_command, connectClient, hp, hk]
    | ok key =>
        cases hck : env.connectKey c.host c.port c.username key c.timeout with
        | error e =>
            simp [test_ssh_connection, execute_ssh_command, connectClient, hp, hk, hck]
        | ok u =>
            cases hx : env.execCommand cmd <;>
              simp [test_ssh_connection, execute_ssh_command, connectClient, hp, hk, hck, hx]

/-- C8: the `active_connections` registry created in `Tools.__init__`
is dead state — after every finite sequence of calls on a freshly
constructed instance it is still the empty dictionary, and each SSH
operation starts by constructing a fresh client rather than taking one
from the registry. -/
theorem registry_never_touched_and_clients_fresh :
    (∀ calls : List Call, (Tools.run Tools.init calls).active_connections = []) ∧
    (∀ env c cmd,
      (test_ssh_connection env c).events.head? = some .clientCreated ∧
      (execute_ssh_command env c cmd).events.head? = some .clientCreated) := by
  exact ⟨fun calls => by rw [tools_run_id]; rfl,
    fun env c cmd => ssh_ops_create_fresh_client env c cmd⟩

/-- C9: when the body has no `"messages"` key or an empty message list,
`pipe` returns exactly `{"error": "No messages provided"}` and performs
no external call at all — in particular no IP lookup and no SSH
connection attempt. -/
theorem pipe_no_messages_early_return (env : PipeEnv) (b : Body)
    (h : b.messages = none ∨ b.messages = some []) :
    pipe env b = (.errorOnly [("error", "No messages provided")], []) := by
  rcases h with h | h <;> simp [pipe, h]

/-- Witness for C9 at a body with no `"messages"` key. -/
theorem pipe_no_messages_early_return_witness :
    pipe envPipeOk ⟨none⟩ = (.errorOnly [("error", "No messages provided")], []) :=
  pipe_no_messages_early_return envPipeOk ⟨none⟩ (Or.inl rfl)

/-- C10: for every non-empty message list whose last content contains
`"ip"` case-insensitively, `pipe` appends exactly one assistant message
carrying the IP-info result and its run performs only IP-probe events —
no client construction, no dial, no command: the `elif "ssh"` branch is
unreachable even when the content also mentions ssh. -/
theorem pipe_ip_branch_precedence (env : PipeEnv) (b : Body) (msgs : List Message)
    (h1 : b.messages = some msgs) (h2 : msgs ≠ [])
    (h3 : pyContains (pyLower (msgs.getLast?.getD ⟨"", ""⟩).content) "ip" = true) :
    pipe env b =
      (.body ⟨some (msgs ++
          [⟨"assistant", dumpsWrap "ip_info" (get_ip_info env.ip).1⟩])⟩,
        (get_ip_info env.ip).2) ∧
    (pipe env b).2.all (fun e => !e.isSSH) = true := by
  have hne : msgs.isEmpty = false := by
    cases msgs with
    | nil => exact absurd rfl h2
    | cons m ms => rfl
  cases hg : env.ip.gethostbyname with
  | error e =>
      constructor <;>
        simp [pipe, h1, hne, h3, get_ip_info, hg, Event.isSSH]
  | ok priv =>
      cases hpub : env.ip.publicIp with
      | error e =>
          constructor <;>
            simp [pipe, h1, hne, h3, get_ip_info, hg, hpub, Event.isSSH]
      | ok pub =>
          constructor <;>
            simp [pipe, h1, hne, h3, get_ip_info, hg, hpub, Event.isSSH]

/-- Witness for C10: the single message `"use ssh to get my IP"`
mentions both ssh and IP; the IP branch runs and only IP-probe events
occur. -/
theorem pipe_ip_branch_precedence_witness :
    (pipe envPipeOk bodyIpSsh =
      (.body ⟨some ([⟨"user", "use ssh to get my IP"⟩] ++
          [⟨"assistant", dumpsWrap "ip_info" (get_ip_info envPipeOk.ip).1⟩])⟩,
        (get_ip_info envPipeOk.ip).2) ∧
    (pipe envPipeOk bodyIpSsh).2.all (fun e => !e.isSSH) = true) :=
  pipe_ip_branch_precedence envPipeOk bodyIpSsh [⟨"user", "use ssh to get my IP"⟩]
    rfl (by decide) (by decide)

end OpenWebUI
